import Mathlib

/-!
Verification development for the load-generation and metrics core of the
`apitestkit` repository (files `apitestkit/performance/load_generator.py` and
`apitestkit/performance/metrics_collector.py`).

The Python code is shallowly embedded: Python floats become `ℚ` (all the
properties checked here are order/equality properties preserved by exact
arithmetic), Python dicts with dynamic keys become association lists kept in
insertion order, Python `None`-vs-dict dynamics become explicit inductive
types, and an exception escaping a function is an `Except.error` result.
Thread pools in the source are driven synchronously in the embedded
semantics (each submitted task runs to completion at its submission point);
the claims treated here are about sequential data-flow facts that do not
depend on interleaving.
-/

namespace Apitestkit

/-! ### String helpers mirroring Python operations -/

/-- Test whether `sub` is an initial segment of `s` (character lists). -/
def charsStartWith : List Char → List Char → Bool
  | [], _ => true
  | _ :: _, [] => false
  | c :: cs, d :: ds => c = d && charsStartWith cs ds

/-- Test whether `sub` occurs inside `s` (character lists), by checking
`charsStartWith` at every suffix of `s`. -/
def charsContain (sub : List Char) : List Char → Bool
  | [] => charsStartWith sub []
  | d :: ds => charsStartWith sub (d :: ds) || charsContain sub ds

/-- Python `sub in s` substring test. -/
def strContains (s sub : String) : Bool := charsContain sub.data s.data

/-- Python `s.lower()`. -/
def pyLower (s : String) : String := ⟨s.data.map Char.toLower⟩

instance {ε α : Type} [DecidableEq ε] [DecidableEq α] : DecidableEq (Except ε α) := fun x y =>
  match x, y with
  | .ok a, .ok b =>
    if h : a = b then .isTrue (by rw [h]) else .isFalse (by intro hc; cases hc; exact h rfl)
  | .error a, .error b =>
    if h : a = b then .isTrue (by rw [h]) else .isFalse (by intro hc; cases hc; exact h rfl)
  | .ok _, .error _ => .isFalse (by intro hc; cases hc)
  | .error _, .ok _ => .isFalse (by intro hc; cases hc)

/-- An `if`/`elif` chain whose branch results all lie in a list also has its
value in that list. -/
theorem ite_mem_of {α : Type} {c : Prop} [Decidable c] {a b : α} {l : List α}
    (ha : a ∈ l) (hb : b ∈ l) : (if c then a else b) ∈ l := by
  split <;> assumption

/-! ### Error classifier (`LoadGenerator._classify_error_type`) -/

/-- A Python exception value as seen by `_classify_error_type`: its class
name (`exception.__class__.__name__`), its message (`str(exception)`), and
the `isinstance` facts the classifier queries.  The flags are independent
booleans; the real `requests` class hierarchy only ever produces particular
combinations, but the classifier's if/elif chain reads them in a fixed
order, which is embedded verbatim. -/
structure PyExc where
  clsName : String
  msg : String
  isAssertionError : Bool := false
  isSocketTimeout : Bool := false
  isRequestsTimeout : Bool := false
  isRequestsConnectionError : Bool := false
  isRequestsHTTPError : Bool := false
  isRequestsRequestException : Bool := false
deriving DecidableEq

/-- Embedding of `LoadGenerator._classify_error_type` (load_generator.py
lines 403-435): the if/elif chain in source order; `pyLower e.msg` is the
source's `exception_str`. -/
def classifyErrorType (e : PyExc) : String :=
  if e.isAssertionError then "assertion_error"
  else if e.isSocketTimeout then "timeout"
  else if e.isRequestsTimeout || strContains (pyLower e.msg) "timeout" then "timeout"
  else if e.isRequestsConnectionError || strContains (pyLower e.msg) "connection"
       || strContains (pyLower e.msg) "network" || strContains (pyLower e.msg) "connect" then
    "connection_error"
  else if strContains e.clsName "HTTPError" then "http_error"
  else if e.isRequestsHTTPError then "http_error"
  else if e.isRequestsRequestException then "request_error"
  else "other_error"

/-- The closed `ErrorKind` set claimed by the specification (spec section 3),
written in the source's snake_case tags. -/
def specErrorKinds : List String :=
  ["timeout", "connection_error", "http_error", "assertion_error",
   "validation_error", "system_error", "other_error"]

/-- The set of tags `_classify_error_type` can actually produce. -/
def actualErrorKinds : List String :=
  ["assertion_error", "timeout", "connection_error", "http_error",
   "request_error", "other_error"]

/-- A bare `requests.exceptions.RequestException` (none of the more specific
subclasses), whose message mentions none of the classifier's keywords. -/
def requestExcSample : PyExc :=
  { clsName := "RequestException", msg := "bad handshake",
    isRequestsRequestException := true }

/-- C5 counterexample: the classifier maps a plain `RequestException` to the
tag `request_error`, which is not a member of the specification's closed
seven-kind set, so the classifier's range is not contained in that set. -/
theorem classify_escapes_spec_kinds :
    classifyErrorType requestExcSample = "request_error" ∧
      "request_error" ∉ specErrorKinds := by
  constructor
  · decide
  · decide

/-- Every output of the classifier is one of the six tags of
`actualErrorKinds`. -/
theorem classify_mem (e : PyExc) : classifyErrorType e ∈ actualErrorKinds := by
  unfold classifyErrorType
  refine ite_mem_of ?_ (ite_mem_of ?_ (ite_mem_of ?_ (ite_mem_of ?_
    (ite_mem_of ?_ (ite_mem_of ?_ (ite_mem_of ?_ ?_)))))) <;>
    simp [actualErrorKinds]

/-- C5 amended: the classifier is total by construction and always returns
exactly one tag from the six-element set `actualErrorKinds`; the kinds
`validation_error` and `system_error` are never produced, and the extra kind
`request_error` (absent from the specification's set) is produced for plain
`requests.exceptions.RequestException`s. -/
theorem classify_total_into_actual_kinds (e : PyExc) :
    classifyErrorType e ∈ actualErrorKinds := classify_mem e

/-! ### Association-list helpers (Python dicts in insertion order) -/

/-- Python `m.get(k, d)` for an int-valued dict. -/
def lookupD (m : List (String × Nat)) (k : String) (d : Nat) : Nat :=
  match m with
  | [] => d
  | (k', v) :: rest => if k' = k then v else lookupD rest k d

/-- Python `k in m`. -/
def hasKey (m : List (String × Nat)) (k : String) : Bool :=
  match m with
  | [] => false
  | (k', _) :: rest => k' = k || hasKey rest k

/-- Python `m[k] = m.get(k, 0) + 1`: increment in place, or append a new
key with count 1 (dicts preserve insertion order). -/
def bumpAssoc (m : List (String × Nat)) (k : String) : List (String × Nat) :=
  match m with
  | [] => [(k, 1)]
  | (k', v) :: rest => if k' = k then (k', v + 1) :: rest else (k', v) :: bumpAssoc rest k

/-- Python `m.get(k)` for a string-valued dict. -/
def lookupStr (m : List (String × String)) (k : String) : Option String :=
  match m with
  | [] => none
  | (k', v) :: rest => if k' = k then some v else lookupStr rest k

/-! ### Load generator data model -/

/-- The test-configuration fields the embedded code reads.  The embedding
models a configuration object on which every attribute the code asks for is
present, so the per-call-site `getattr`/`get` defaults in the source never
fire; the field defaults here are those use-site defaults.  (The
`self._stop_on_error` copy taken in `_init_error_handling_config` is never
read by the source; each use site re-reads the config.) -/
structure TestConfig where
  test_type : String := ""
  max_retries : Nat := 0
  retry_delay : ℚ := 1/10
  retryable_errors : List String := ["timeout", "connection_error"]
  error_threshold : Option Nat := none
  error_rate_threshold : Option ℚ := none
  consecutive_error_threshold : Option Nat := none
  stop_on_error : Bool := false
  before_concurrent : Nat := 1
  after_concurrent : Nat := 1
  max_thread_pool_size : Nat := 0
  concurrent_users : Nat := 1
  duration : ℚ := 60
deriving DecidableEq

/-- A Python dict as returned by a user task: the keys the load generator
inspects (`success`, `error_type`, `error`); `none` = key absent. -/
structure PyDict where
  success : Option Bool := none
  error_type : Option String := none
  error : Option String := none
deriving DecidableEq

/-- A Python value returned by one invocation of a task function, as
discriminated by `_execute_with_retry` lines 361-372. -/
inductive PyValue where
  | pyNone
  | pyDictV (d : PyDict)
  | pyResp (status_code : Nat)
  | pyOther
deriving DecidableEq

/-- The outcome of one invocation of a Python callable: return a value or
raise an exception. -/
inductive CallResult where
  | ok (v : PyValue)
  | exc (e : PyExc)
deriving DecidableEq

/-- What `_execute_with_retry` can return: `None` (final failure), the
task's own dict (when its `success` is truthy or absent), a wrapper dict
`success=True, result=v`, or the bare dict `success=True`. -/
inductive PyRetVal where
  | pnone
  | pdict (d : PyDict)
  | wrapped (v : PyValue)
  | bareSuccess
deriving DecidableEq

/-- An element of `self._after_results`: the after function's return value,
or the dict `success=False, error=msg` built when it raised. -/
inductive AfterResult where
  | ok (v : PyValue)
  | err (msg : String)
deriving DecidableEq

/-- The mutable `LoadGenerator` attributes the embedded methods touch.
`error_stats` is `self._error_statistics` minus its `error_details` key,
which is tracked separately in `error_details`; `total_errors` is the
`self._total_errors` attribute kept in sync by `_record_error`. -/
structure GenState where
  running : Bool := false
  stop_event : Bool := false
  current_users : Nat := 0
  completed_tasks : Nat := 0
  before_tasks_completed : Bool := false
  after_tasks_completed : Bool := false
  before_results : List PyRetVal := []
  after_results : List AfterResult := []
  error_count : Nat := 0
  total_errors : Nat := 0
  consecutive_errors : Nat := 0
  consecutive_error_count : Nat := 0
  error_stats : List (String × Nat) := []
  error_details : List (String × Nat) := []
deriving DecidableEq

/-- `self._error_statistics` as (re)built by `_init_error_handling_config`
(lines 69-78), minus the `error_details` sub-dict. -/
def initErrorStats : List (String × Nat) :=
  [("total_errors", 0), ("timeout", 0), ("connection_error", 0),
   ("business_error", 0), ("system_error", 0), ("unexpected_error", 0),
   ("other_error", 0)]

/-- The generator state after `__init__` (which ends by calling
`_init_error_handling_config`). -/
def initGenState : GenState := { error_stats := initErrorStats }

/-- The `error_type_mapping` dict of `_record_error` (lines 455-464). -/
def errorTypeMapping : List (String × String) :=
  [("timeout", "timeout"), ("connection_error", "connection_error"),
   ("http_error", "business_error"), ("assertion_error", "business_error"),
   ("validation_error", "business_error"), ("business_error", "business_error"),
   ("system_error", "system_error"), ("unexpected_error", "unexpected_error")]

/-- The hard-coded standard-type list of `_record_error` line 477. -/
def stdErrorTypes : List String :=
  ["timeout", "connection_error", "business_error", "system_error",
   "unexpected_error", "other_error"]

/-- Embedding of `LoadGenerator._record_error` (lines 437-495), statement by
statement in source order. -/
def recordError (error_type error_message : String) (s : GenState) : GenState :=
  let s := { s with error_count := s.error_count + 1 }
  let s := { s with error_stats := bumpAssoc s.error_stats "total_errors" }
  let s := { s with total_errors := lookupD s.error_stats "total_errors" 0 }
  let s := { s with consecutive_errors := s.consecutive_errors + 1 }
  let s := { s with consecutive_error_count := s.consecutive_errors }
  let normalized := (lookupStr errorTypeMapping error_type).getD "other_error"
  let s := { s with error_stats :=
      (if hasKey s.error_stats normalized then bumpAssoc s.error_stats normalized
       else bumpAssoc s.error_stats "other_error") }
  let s := if error_type ∈ stdErrorTypes then s
      else { s with error_stats := bumpAssoc s.error_stats error_type }
  let s := { s with error_details := bumpAssoc s.error_details error_message }
  if normalized = "system_error" then { s with stop_event := true } else s

/-! ### Retry executor (`LoadGenerator._execute_with_retry`) -/

/-- One failing attempt's state update inside `_execute_with_retry`: the
`except` branch (lines 373-383) classifies, records, and then bumps the
consecutive counters once more. -/
def failStep (e : PyExc) (s : GenState) : GenState :=
  let s := recordError (classifyErrorType e) e.msg s
  let s := { s with consecutive_error_count := s.consecutive_error_count + 1 }
  { s with consecutive_errors := s.consecutive_error_count }

/-- The retry decision of line 387: retryable kind, or a `timeout` kind, or
a raw `socket.timeout` instance. -/
def shouldRetry (cfg : TestConfig) (e : PyExc) : Bool :=
  decide (classifyErrorType e ∈ cfg.retryable_errors)
    || classifyErrorType e == "timeout" || e.isSocketTimeout

/-- The value returned for a successful attempt (lines 361-372): a dict with
truthy-or-missing `success` is returned as-is; anything with a
`status_code` attribute, or any other non-`None` value, is wrapped as
`success=True, result=v`; `None` becomes the bare `success=True` dict. -/
def retrySuccessVal : PyValue → PyRetVal
  | .pyDictV d => if d.success.getD true then .pdict d else .wrapped (.pyDictV d)
  | .pyResp c => .wrapped (.pyResp c)
  | .pyNone => .bareSuccess
  | .pyOther => .wrapped .pyOther

/-- The retry loop of `_execute_with_retry` (`for attempt in
range(max_retries + 1)`), structurally recursing on the remaining budget
`fuel` (`fuel = max_retries - attempt` at every reachable call, so the
`fuel = 0` fallback inside the retry branch is dead).  `stream n` is the
outcome of the n-th invocation of the task function and `k + attempt`
indexes the current invocation; backoff sleeps are no-ops here.  Returns
the Python return value, the state, and the number of attempts made. -/
def retryGo (cfg : TestConfig) (stream : Nat → CallResult) (k : Nat) :
    Nat → Nat → GenState → PyRetVal × GenState × Nat
  | attempt, fuel, s =>
    match stream (k + attempt) with
    | .ok v =>
      let s1 := { s with consecutive_error_count := 0, consecutive_errors := 0 }
      (retrySuccessVal v, s1, attempt + 1)
    | .exc e =>
      let s1 := failStep e s
      if shouldRetry cfg e && decide (attempt < cfg.max_retries) then
        match fuel with
        | 0 => (.pnone, s1, attempt + 1)
        | f + 1 => retryGo cfg stream k (attempt + 1) f s1
      else (.pnone, s1, attempt + 1)

/-- Embedding of `LoadGenerator._execute_with_retry` (lines 310-401) for the
callable-task form (the HTTP method/url form is not exercised by the run
path embedded here).  The retry configuration is the snapshot
`self._retry_config`, whose values equal the config fields.  Line 346
resets the consecutive-error counters before the first attempt. -/
def executeWithRetry (cfg : TestConfig) (stream : Nat → CallResult) (k : Nat)
    (s : GenState) : PyRetVal × GenState × Nat :=
  let s := { s with consecutive_error_count := 0, consecutive_errors := 0 }
  retryGo cfg stream k 0 cfg.max_retries s

/-! ### Run coordinator (`generate_load`, before/after phases) -/

/-- A Python exception escaping the embedded load-generator code to its
caller: the `AttributeError` raised by `result.get(...)` when
`_execute_with_retry` returned `None`, or the `ValueError` raised for an
unsupported `test_type` (line 170). -/
inductive Esc where
  | attributeNoneGet
  | valueErrorBadType (t : String)
deriving DecidableEq

/-- Python `result.get('success', True)` on a `_execute_with_retry` return
value; on `None` this is an `AttributeError`. -/
def PyRetVal.getSuccessD : PyRetVal → Except Esc Bool
  | .pnone => .error .attributeNoneGet
  | .pdict d => .ok (d.success.getD true)
  | .wrapped _ => .ok true
  | .bareSuccess => .ok true

/-- Python `result.get('error_type', dflt)` (callers only use this after a
successful `.get('success', ...)`, so the `None` case cannot occur; the
wrapper dicts have no `error_type` key). -/
def PyRetVal.getErrorTypeD (r : PyRetVal) (dflt : String) : String :=
  match r with
  | .pdict d => d.error_type.getD dflt
  | _ => dflt

/-- Python `result.get('error', dflt)` under the same conditions. -/
def PyRetVal.getErrorD (r : PyRetVal) (dflt : String) : String :=
  match r with
  | .pdict d => d.error.getD dflt
  | _ => dflt

/-- Embedding of `LoadGenerator.stop` (lines 195-201). -/
def stopGen (s : GenState) : GenState := { s with stop_event := true, running := false }

/-- Embedding of `LoadGenerator._execute_before_tasks` (lines 263-308).  The
single `executor.submit(before_func)` runs the before function once and
drops its outcome (the future's result — or captured exception — is never
read, so the embedding consumes invocation `k` without inspecting it); the
`as_completed` loop then runs `_execute_with_retry(before_func)` on
invocations `k+1, ...` and appends its result to `before_results` before
checking it.  `k` indexes the next unused invocation of the before
function; the returned `Nat` is the next index after this phase.  The
computed thread-pool width is never used for anything but logging. -/
def execBeforeTasks (cfg : TestConfig) (before : Nat → CallResult) (k : Nat)
    (s : GenState) : Except Esc Unit × GenState × Nat :=
  let _maxWorkers := if cfg.max_thread_pool_size > 0
      then min cfg.before_concurrent cfg.max_thread_pool_size else cfg.before_concurrent
  let r := executeWithRetry cfg before (k + 1) s
  let s2 := { r.2.1 with before_results := r.2.1.before_results ++ [r.1] }
  match r.1.getSuccessD with
  | .error e => (.error e, s2, k + 1 + r.2.2)
  | .ok succ =>
    if !succ then
      let s3 := recordError (r.1.getErrorTypeD "unknown")
          (r.1.getErrorD "Unknown error") s2
      if cfg.stop_on_error then (.ok (), stopGen s3, k + 1 + r.2.2)
      else (.ok (), { s3 with before_tasks_completed := true }, k + 1 + r.2.2)
    else (.ok (), { s2 with before_tasks_completed := true }, k + 1 + r.2.2)

/-- Embedding of `LoadGenerator._execute_after_tasks` (lines 554-595): one
submitted future; its result is appended to `after_results`, or a raised
exception becomes a `success=False, error=str(e)` record.  Both branches
reach `after_tasks_completed = True`. -/
def execAfterTasks (cfg : TestConfig) (after : Nat → CallResult) (ka : Nat)
    (s : GenState) : GenState × Nat :=
  let _maxWorkers := if cfg.max_thread_pool_size > 0
      then min cfg.after_concurrent cfg.max_thread_pool_size else cfg.after_concurrent
  match after ka with
  | .ok v =>
      ({ s with
         after_results := s.after_results ++ [.ok v],
         after_tasks_completed := true }, ka + 1)
  | .exc e =>
      ({ s with
         after_results := s.after_results ++ [.err e.msg],
         after_tasks_completed := true }, ka + 1)

/-- What `generate_load` returns on a non-raising path: the early
`status=stopped, reason=before_task_failed` dict (line 149), or the test
result dict with the before/after bookkeeping attached (lines 177-183; the
profile-specific contents are irrelevant to the claims and abstracted to
the dict's truthiness). -/
inductive RunRet where
  | stopped
  | result (truthy : Bool)
deriving DecidableEq

/-- The `test_type` values `generate_load` dispatches on (lines 159-168). -/
def knownTestTypes : List String := ["concurrent", "tps", "qps", "ramp_up", "stability"]

/-- The dispatch on `test_type` (lines 151-170) followed by the in-`try`
after phase (lines 172-174) and the attachment of the before/after
bookkeeping to the result dict (lines 176-183, abstracted to the dict's
truthiness).  `loadPhase` stands for the profile generator selected by
`test_type`; the five real generators drive wall-clock time and thread
pools, so they are abstracted as an arbitrary transformer that may mutate
the state, return a result dict (abstracted to its truthiness) or raise. -/
def dispatchLoadAndAfter (cfg : TestConfig)
    (loadPhase : GenState → Except Esc Bool × GenState)
    (afterB : Option (Nat → CallResult)) (s : GenState) :
    Except Esc RunRet × GenState × Nat :=
  if cfg.test_type ∈ knownTestTypes then
    match (loadPhase s).1 with
    | .error e => (.error e, (loadPhase s).2, 0)
    | .ok truthy =>
      match afterB with
      | some a =>
        let ar := execAfterTasks cfg a 0 (loadPhase s).2
        (.ok (.result truthy), ar.1, ar.2)
      | none => (.ok (.result truthy), (loadPhase s).2, 0)
  else (.error (.valueErrorBadType cfg.test_type), s, 0)

/-- The body of `generate_load`'s `try:` block (lines 141-183): the optional
before phase with its early `stopped` return, then the dispatch.  Returns
the try-block outcome, the state, and the next unused after-function
invocation index. -/
def genTryBody (cfg : TestConfig) (loadPhase : GenState → Except Esc Bool × GenState)
    (beforeB afterB : Option (Nat → CallResult)) (s : GenState) :
    Except Esc RunRet × GenState × Nat :=
  match beforeB with
  | none => dispatchLoadAndAfter cfg loadPhase afterB s
  | some b =>
    match (execBeforeTasks cfg b 0 s).1 with
    | .error e => (.error e, (execBeforeTasks cfg b 0 s).2.1, 0)
    | .ok _ =>
      if (execBeforeTasks cfg b 0 s).2.1.stop_event then
        (.ok .stopped, (execBeforeTasks cfg b 0 s).2.1, 0)
      else dispatchLoadAndAfter cfg loadPhase afterB (execBeforeTasks cfg b 0 s).2.1

/-- The flag reset at the top of `generate_load` (lines 133-139, including
`self._stop_event.clear()`). -/
def resetRunState (s : GenState) : GenState :=
  { s with
    running := true, stop_event := false, completed_tasks := 0,
    before_tasks_completed := false, after_tasks_completed := false,
    before_results := [], after_results := [] }

/-- Embedding of `LoadGenerator.generate_load` (lines 119-193): reset the
run flags, run the `try:` body, then the `finally:` block (lines 185-193:
re-run the after tasks unless they already completed, no after function was
given, or the stop event is set), and clear `running`.  An `Except.error`
outcome models an exception escaping `generate_load` to the caller after
the `finally:` block ran. -/
def generate_load (cfg : TestConfig) (loadPhase : GenState → Except Esc Bool × GenState)
    (beforeB afterB : Option (Nat → CallResult)) (s0 : GenState) :
    Except Esc RunRet × GenState :=
  let s := resetRunState s0
  let t := genTryBody cfg loadPhase beforeB afterB s
  let s2 :=
    if !t.2.1.after_tasks_completed && afterB.isSome && !t.2.1.stop_event then
      match afterB with
      | some a => (execAfterTasks cfg a t.2.2 t.2.1).1
      | none => t.2.1
    else t.2.1
  (t.1, { s2 with running := false })

/-! ### Metrics collector (`metrics_collector.py`) -/

/-- Python `int(x)` on a float: truncation toward zero. -/
def pyTrunc (q : ℚ) : Int := if q < 0 then -⌊-q⌋ else ⌊q⌋

/-- Python `max(list)` (callers guard against the empty case, for which the
Python call would raise; the embedding returns 0 there). -/
def pyMax : List ℚ → ℚ
  | [] => 0
  | h :: t => t.foldl max h

/-- Python `min(list)` under the same convention. -/
def pyMin : List ℚ → ℚ
  | [] => 0
  | h :: t => t.foldl min h

/-- Python `list.sort()` on floats: a stable sort by `≤`. -/
def sortRats (l : List ℚ) : List ℚ := l.insertionSort (· ≤ ·)

/-- Generic Python dict update `m[k] = f(m.get(k, d))`, keeping insertion
order and appending new keys at the end. -/
def updateK {κ ν : Type} [DecidableEq κ] (m : List (κ × ν)) (k : κ) (d : ν)
    (f : ν → ν) : List (κ × ν) :=
  match m with
  | [] => [(k, f d)]
  | (k', v) :: rest => if k' = k then (k', f v) :: rest else (k', v) :: updateK rest k d f

/-- Python `defaultdict(int)` increment `m[k] += 1` for an arbitrary key
type. -/
def bumpK {κ : Type} [DecidableEq κ] (m : List (κ × Nat)) (k : κ) : List (κ × Nat) :=
  updateK m k 0 (· + 1)

/-- The `error_patterns` table of `MetricsCollector._simplify_error`
(lines 207-223). -/
def errorPatterns : List (String × String) :=
  [("timeout", "请求超时"), ("Connection refused", "连接被拒绝"),
   ("Connection reset", "连接重置"), ("Name or service not known", "域名解析失败"),
   ("no route to host", "无法路由到主机"), ("ssl", "SSL错误"),
   ("certificate", "证书错误"), ("400", "400错误请求"), ("401", "401未授权"),
   ("403", "403禁止访问"), ("404", "404未找到"), ("500", "500服务器错误"),
   ("502", "502错误网关"), ("503", "503服务不可用"), ("504", "504网关超时")]

/-- Embedding of `MetricsCollector._simplify_error` (lines 196-231): first
pattern found in the lowercased message wins, otherwise the first 50
characters (with an ellipsis when truncated). -/
def simplifyError (error : String) : String :=
  let errorLower := pyLower error
  match errorPatterns.find? (fun p => strContains errorLower p.1) with
  | some p => p.2
  | none => String.mk (error.data.take 50) ++ (if error.data.length > 50 then "..." else "")

/-- One per-`transaction_name` bucket of `self._metrics['transaction_metrics']`. -/
structure TxMetrics where
  total_requests : Nat := 0
  successful_requests : Nat := 0
  failed_requests : Nat := 0
  response_times : List ℚ := []
deriving DecidableEq

/-- One per-second bucket of `self._metrics['time_series']`. -/
structure TimeSeriesRecord where
  timestamp : Int
  total_requests : Nat
  successful_requests : Nat
  failed_requests : Nat
  response_times : List ℚ
deriving DecidableEq

/-- One element of `self._metrics['throughput_data']`. -/
structure ThroughputPoint where
  timestamp : ℚ
  response_time : ℚ
  success : Bool
deriving DecidableEq

/-- `self._metrics['connection_metrics']`. -/
structure ConnectionState where
  total_connections : Nat := 0
  failed_connections : Nat := 0
  connection_errors : List (String × Nat) := []
deriving DecidableEq

/-- One element of `self._requests`.  `additional_data` is modelled by the
only key the collector reads from it, `transaction_name`; `connection_info`
is stored as `connection_info or {}`, so `None` and the empty dict coincide
as the empty list. -/
structure RequestRecord where
  start_time : ℚ
  end_time : ℚ
  response_time : ℚ
  status_code : Option Nat
  success : Bool
  error : Option String
  transaction_name : Option String
  latency_breakdown : List (String × ℚ)
  connection_info : List (String × String)
deriving DecidableEq

/-- The `MetricsCollector` state: `self._start_time`, `self._end_time`,
`self._requests`, the `self._metrics` dict (one field per key; the unused
`resource_usage` lists stay empty and are omitted), and
`self._last_per_second_data` (whose tuple keys `('success', sec)` /
`('failed', sec)` are modelled as `(true, sec)` / `(false, sec)`). -/
structure CollectorState where
  start_time : ℚ
  end_time : Option ℚ := none
  requests : List RequestRecord := []
  total_requests : Nat := 0
  successful_requests : Nat := 0
  failed_requests : Nat := 0
  response_times : List ℚ := []
  status_codes : List (Nat × Nat) := []
  errors : List (String × Nat) := []
  time_series : List TimeSeriesRecord := []
  transaction_metrics : List (String × TxMetrics) := []
  concurrent_users : Nat := 0
  throughput_data : List ThroughputPoint := []
  latency_breakdown : List (String × List ℚ) := []
  connection_metrics : ConnectionState := {}
  last_per_second : List ((Bool × Int) × Nat) := []
deriving DecidableEq

/-- The collector state right after `MetricsCollector.__init__` at wall
time `t0`. -/
def initCollector (t0 : ℚ) : CollectorState := { start_time := t0 }

/-- Embedding of `MetricsCollector._record_time_series_data` (lines
160-194).  The source scans the bucket list from the end; since a bucket is
only ever created when no bucket with its timestamp exists, timestamps are
unique in the list and a front-to-back scan updates the same bucket.  The
`status_code` parameter of the source is never used by its body. -/
def recordTimeSeries (ts : List TimeSeriesRecord) (timestamp : Int) (success : Bool)
    (rt : ℚ) : List TimeSeriesRecord :=
  match ts with
  | [] => [{ timestamp := timestamp, total_requests := 1,
             successful_requests := if success then 1 else 0,
             failed_requests := if success then 0 else 1,
             response_times := if success then [rt] else [] }]
  | r :: rest =>
    if r.timestamp = timestamp then
      { r with
        total_requests := r.total_requests + 1,
        successful_requests := r.successful_requests + (if success then 1 else 0),
        failed_requests := r.failed_requests + (if success then 0 else 1),
        response_times := r.response_times ++ (if success then [rt] else []) } :: rest
    else r :: recordTimeSeries rest timestamp success rt

/-- The arguments of one `record_request` call. -/
structure RecordArgs where
  start_time : ℚ
  end_time : ℚ
  response_time : ℚ
  status_code : Option Nat := none
  success : Bool := true
  error : Option String := none
  transaction_name : Option String := none
  latency_breakdown : List (String × ℚ) := []
  connection_info : List (String × String) := []
deriving DecidableEq

/-- Embedding of `MetricsCollector.record_request` (lines 58-158), statement
by statement in source order.  Python truthiness is embedded exactly:
`if status_code:` is false for `None` and for 0, `if error:` is false for
`None` and the empty string, `if connection_info:` is false for the empty
dict. -/
def record_request (s : CollectorState) (a : RecordArgs) : CollectorState :=
  let req : RequestRecord :=
    { start_time := a.start_time, end_time := a.end_time,
      response_time := a.response_time, status_code := a.status_code,
      success := a.success, error := a.error,
      transaction_name := a.transaction_name,
      latency_breakdown := a.latency_breakdown,
      connection_info := a.connection_info }
  let s := { s with
             requests := s.requests ++ [req],
             total_requests := s.total_requests + 1 }
  let s := match a.transaction_name with
    | some tx =>
      { s with transaction_metrics := updateK s.transaction_metrics tx {} (fun m =>
          let m := { m with total_requests := m.total_requests + 1 }
          if a.success then
            { m with
              successful_requests := m.successful_requests + 1,
              response_times := m.response_times ++ [a.response_time] }
          else { m with failed_requests := m.failed_requests + 1 }) }
    | none => s
  let s :=
    if a.success then
      let s := { s with
                 successful_requests := s.successful_requests + 1,
                 response_times := s.response_times ++ [a.response_time] }
      match a.status_code with
      | some c => if c ≠ 0 then { s with status_codes := bumpK s.status_codes c } else s
      | none => s
    else
      let s := { s with failed_requests := s.failed_requests + 1 }
      match a.error with
      | some e =>
        if e ≠ "" then { s with errors := bumpAssoc s.errors (simplifyError e) } else s
      | none => s
  let lb2 :=
    a.latency_breakdown.foldl (fun lb p => updateK lb p.1 [] (· ++ [p.2]))
      s.latency_breakdown
  let s := { s with latency_breakdown := lb2 }
  let s :=
    if a.connection_info ≠ [] then
      let cm := s.connection_metrics
      let cm := { cm with total_connections := cm.total_connections + 1 }
      let cm :=
        match a.success, lookupStr a.connection_info "connection_error" with
        | false, some connError =>
          { cm with
            failed_connections := cm.failed_connections + 1,
            connection_errors := bumpAssoc cm.connection_errors connError }
        | _, _ => cm
      { s with connection_metrics := cm }
    else s
  let ts2 := recordTimeSeries s.time_series (pyTrunc a.start_time) a.success a.response_time
  let s := { s with time_series := ts2 }
  let tpPoint : ThroughputPoint :=
    { timestamp := a.start_time, response_time := a.response_time, success := a.success }
  let s := { s with throughput_data := s.throughput_data ++ [tpPoint] }
  { s with last_per_second := bumpK s.last_per_second (a.success, pyTrunc a.start_time) }

/-- Embedding of `MetricsCollector._calculate_percentile` (lines 430-448):
nearest-rank by `int(len * percentile / 100)`, clamped to the last index. -/
def calcPercentile (l : List ℚ) (p : ℚ) : ℚ :=
  if l.isEmpty then 0
  else
    let index : Int := pyTrunc ((l.length : ℚ) * p / 100)
    let index : Int := if index ≥ (l.length : Int) then (l.length : Int) - 1 else index
    l.getD index.toNat 0

/-- Embedding of `MetricsCollector._calculate_test_duration` (lines
411-428). -/
def calcTestDuration (s : CollectorState) : ℚ :=
  if s.requests.isEmpty then 0
  else
    match s.end_time with
    | some e => e - s.start_time
    | none =>
      pyMax (s.requests.map (·.end_time)) - pyMin (s.requests.map (·.start_time))

/-- The per-second aggregation `second_data` used by the summary and by
`_calculate_throughput_variation`: count throughput points per truncated
second, in first-appearance order. -/
def secondCounts (tp : List ThroughputPoint) : List (Int × Nat) :=
  tp.foldl (fun m p => bumpK m (pyTrunc p.timestamp)) []

/-- Embedding of `MetricsCollector._calculate_throughput_variation` (lines
662-682), except that the embedding returns the variance, i.e. the square
of the source's standard deviation: the square root is irrational in
general, and squaring preserves equality, order against 0, and the zero
value, which is all the claims use. -/
def calcThroughputVariationSq (s : CollectorState) : ℚ :=
  if s.throughput_data.length < 2 then 0
  else
    let counts := (secondCounts s.throughput_data).map (fun p => (p.2 : ℚ))
    let mean := counts.sum / (counts.length : ℚ)
    (counts.map (fun x => (x - mean) ^ 2)).sum / (counts.length : ℚ)

/-- One value of the summary's `latency_stats` map. -/
structure LatencyStat where
  avg : ℚ
  min : ℚ
  max : ℚ
  p50 : ℚ
  p95 : ℚ
  count : Nat
deriving DecidableEq

/-- The dict returned by `get_summary_metrics` (lines 365-409), one field
per key.  `throughput_variation_sq` and `response_time_variance` hold the
squares of the source's standard deviations (see
`calcThroughputVariationSq`); the three `connection_metrics` sub-fields are
inlined. -/
structure SummaryMetrics where
  total_requests : Nat
  successful_requests : Nat
  failed_requests : Nat
  success_rate : ℚ
  test_duration : ℚ
  rps : ℚ
  successful_rps : ℚ
  failed_rps : ℚ
  max_rps : ℚ
  min_rps : ℚ
  avg_second_rps : ℚ
  p95_rps : ℚ
  max_success_rps : ℚ
  avg_success_rps : ℚ
  max_failed_rps : ℚ
  avg_failed_rps : ℚ
  throughput_variation_sq : ℚ
  avg_response_time : ℚ
  min_response_time : ℚ
  max_response_time : ℚ
  p50_response_time : ℚ
  p90_response_time : ℚ
  p95_response_time : ℚ
  p99_response_time : ℚ
  p999_response_time : ℚ
  response_time_variance : ℚ
  max_concurrent_users : Nat
  latency_stats : List (String × LatencyStat)
  connection_total : Nat
  connection_failed : Nat
  connection_success_rate : ℚ
  connection_errors : List (String × Nat)
  status_codes_distribution : List (Nat × Nat)
  errors_distribution : List (String × Nat)
deriving DecidableEq

/-- The computation of `get_summary_metrics` (lines 233-409) after the
in-place `response_times.sort()` of line 257: `response_times` is the
sorted sample list, and every later read of the samples goes through it
(the source reads them through the same alias).  The source builds the
three per-second dicts in one loop over `throughput_data`; the embedding
folds the same list once per dict, which yields the same dicts.  The
`rps_values.sort()` of line 308 sorts a fresh `list(...)` copy, so it does
not touch the state. -/
def mkSummary (s : CollectorState) (response_times : List ℚ) : SummaryMetrics :=
  let test_duration := calcTestDuration s
  let rps := if test_duration > 0 then (s.total_requests : ℚ) / test_duration else 0
  let successful_rps :=
    if test_duration > 0 then (s.successful_requests : ℚ) / test_duration else 0
  let failed_rps :=
    if test_duration > 0 then (s.failed_requests : ℚ) / test_duration else 0
  let count := response_times.length
  let avg := if response_times.isEmpty then 0 else response_times.sum / (count : ℚ)
  let minRT := if response_times.isEmpty then 0 else pyMin response_times
  let maxRT := if response_times.isEmpty then 0 else pyMax response_times
  let p50 := if response_times.isEmpty then 0 else calcPercentile response_times 50
  let p90 := if response_times.isEmpty then 0 else calcPercentile response_times 90
  let p95 := if response_times.isEmpty then 0 else calcPercentile response_times 95
  let p99 := if response_times.isEmpty then 0 else calcPercentile response_times 99
  let p999 := if response_times.isEmpty then 0
      else calcPercentile response_times ((999 : ℚ) / 10)
  let variance := if response_times.isEmpty then 0
      else (response_times.map (fun x => (x - avg) ^ 2)).sum / (count : ℚ)
  let success_rate := if s.total_requests > 0
      then (s.successful_requests : ℚ) / (s.total_requests : ℚ) * 100 else 0
  let secondData := secondCounts s.throughput_data
  let successSecond := secondCounts (s.throughput_data.filter (·.success))
  let failedSecond := secondCounts (s.throughput_data.filter (fun p => !p.success))
  let rpsValues := secondData.map (fun p => (p.2 : ℚ))
  let max_rps := if rpsValues.isEmpty then 0 else pyMax rpsValues
  let min_rps := if rpsValues.isEmpty then 0 else pyMin rpsValues
  let avg_second_rps := if rpsValues.isEmpty then 0
      else rpsValues.sum / (rpsValues.length : ℚ)
  let p95_rps := if rpsValues.isEmpty then 0 else calcPercentile (sortRats rpsValues) 95
  let successValues := successSecond.map (fun p => (p.2 : ℚ))
  let max_success_rps := if successValues.isEmpty then 0 else pyMax successValues
  let avg_success_rps := if successValues.isEmpty then 0
      else successValues.sum / (successValues.length : ℚ)
  let failedValues := failedSecond.map (fun p => (p.2 : ℚ))
  let max_failed_rps := if failedValues.isEmpty then 0 else pyMax failedValues
  let avg_failed_rps := if failedValues.isEmpty then 0
      else failedValues.sum / (failedValues.length : ℚ)
  let latency_stats := s.latency_breakdown.map (fun p =>
    (p.1,
      if p.2.isEmpty then
        ({ avg := 0, min := 0, max := 0, p50 := 0, p95 := 0, count := 0 } : LatencyStat)
      else
        ({ avg := p.2.sum / (p.2.length : ℚ), min := pyMin p.2, max := pyMax p.2,
           p50 := calcPercentile (sortRats p.2) 50,
           p95 := calcPercentile (sortRats p.2) 95,
           count := p.2.length } : LatencyStat)))
  let cm := s.connection_metrics
  let connection_success_rate := if cm.total_connections > 0
      then (1 - (cm.failed_connections : ℚ) / (cm.total_connections : ℚ)) * 100 else 100
  { total_requests := s.total_requests,
    successful_requests := s.successful_requests,
    failed_requests := s.failed_requests,
    success_rate := success_rate,
    test_duration := test_duration,
    rps := rps, successful_rps := successful_rps, failed_rps := failed_rps,
    max_rps := max_rps, min_rps := min_rps, avg_second_rps := avg_second_rps,
    p95_rps := p95_rps, max_success_rps := max_success_rps,
    avg_success_rps := avg_success_rps, max_failed_rps := max_failed_rps,
    avg_failed_rps := avg_failed_rps,
    throughput_variation_sq := calcThroughputVariationSq s,
    avg_response_time := avg, min_response_time := minRT,
    max_response_time := maxRT,
    p50_response_time := p50, p90_response_time := p90,
    p95_response_time := p95, p99_response_time := p99,
    p999_response_time := p999,
    response_time_variance := variance,
    max_concurrent_users := s.concurrent_users,
    latency_stats := latency_stats,
    connection_total := cm.total_connections,
    connection_failed := cm.failed_connections,
    connection_success_rate := connection_success_rate,
    connection_errors := cm.connection_errors,
    status_codes_distribution := s.status_codes,
    errors_distribution := s.errors }

/-- Embedding of `MetricsCollector.get_summary_metrics` (lines 233-409): the
returned summary, together with the state it leaves behind — identical to
the input state except that line 257 (`response_times.sort()`) has sorted
the stored response-time list in place. -/
def get_summary_metrics (s : CollectorState) : SummaryMetrics × CollectorState :=
  let sorted := sortRats s.response_times
  (mkSummary s sorted, { s with response_times := sorted })

/-- A whole run against the collector: fold a list of `record_request`
calls over a state. -/
def applyRecords (s : CollectorState) (l : List RecordArgs) : CollectorState :=
  l.foldl record_request s

/-! ### Association-list lemmas -/

theorem lookupD_bumpAssoc_self (m : List (String × Nat)) (k : String) :
    lookupD (bumpAssoc m k) k 0 = lookupD m k 0 + 1 := by
  induction m with
  | nil => simp [bumpAssoc, lookupD]
  | cons p rest ih =>
    obtain ⟨k', v⟩ := p
    by_cases h : k' = k <;> simp [bumpAssoc, lookupD, h, ih]

theorem lookupD_bumpAssoc_other (m : List (String × Nat)) {k k' : String} (h : k' ≠ k) :
    lookupD (bumpAssoc m k') k 0 = lookupD m k 0 := by
  induction m with
  | nil => simp [bumpAssoc, lookupD, h]
  | cons p rest ih =>
    obtain ⟨k'', v⟩ := p
    by_cases h2 : k'' = k' <;> by_cases h3 : k'' = k <;>
      simp_all [bumpAssoc, lookupD]

theorem hasKey_bumpAssoc_self (m : List (String × Nat)) (k : String) :
    hasKey (bumpAssoc m k) k = true := by
  induction m with
  | nil => simp [bumpAssoc, hasKey]
  | cons p rest ih =>
    obtain ⟨k', v⟩ := p
    by_cases h : k' = k <;> simp [bumpAssoc, hasKey, h, ih]

theorem hasKey_bumpAssoc_of (m : List (String × Nat)) {k : String} (k' : String)
    (h : hasKey m k = true) : hasKey (bumpAssoc m k') k = true := by
  induction m with
  | nil => simp [hasKey] at h
  | cons p rest ih =>
    obtain ⟨k'', v⟩ := p
    by_cases h2 : k'' = k'
    · subst h2
      simp [bumpAssoc, hasKey] at h ⊢
      exact h
    · simp [bumpAssoc, h2, hasKey] at h ⊢
      rcases h with h | h
      · exact Or.inl h
      · exact Or.inr (ih h)

/-! ### C1: an operational error escapes `generate_load` -/

/-- An exception with no special classification facts: its message mentions
no keyword, so `_classify_error_type` yields `other_error`, which is not
retryable under the default retry configuration. -/
def boomExc : PyExc := { clsName := "ValueError", msg := "boom" }

/-- A minimal valid configuration: profile `concurrent`, retry budget 0,
`stop_on_error` false. -/
def failingBeforeCfg : TestConfig := { test_type := "concurrent" }

/-- C1: with a before function whose (only) attempt raises an ordinary
error, `_execute_with_retry` returns `None`, `_execute_before_tasks` calls
`.get` on it, and the resulting `AttributeError` escapes `generate_load` to
the caller — the run neither completes nor returns a result structure, on a
purely operational failure. -/
theorem generate_load_escapes_attribute_error :
    (generate_load failingBeforeCfg (fun s => (.ok true, s))
      (some fun _ => .exc boomExc) none initGenState).1
      = .error .attributeNoneGet := by decide

/-! ### C2: the retry executor's return value on final failure -/

/-- C2 counterexample: a task whose single attempt fails with a
non-retryable error makes `_execute_with_retry` return Python `None` — not
an unsuccessful outcome record carrying the classified kind and message. -/
theorem retry_final_failure_returns_none :
    (executeWithRetry { max_retries := 0 } (fun _ => .exc boomExc) 0 initGenState).1
      = .pnone := by decide

/-! ### C7 counterexample: the consecutive-error counter -/

/-- C7 counterexample: starting from a fresh generator, one task attempt
fails (exactly one failure is recorded, witness `total_errors = 1`, and no
success was ever recorded), yet the consecutive-error counter reads 2, not
1: each failing attempt increments it twice (once inside `_record_error`
and once in the retry loop). -/
theorem consecutive_counter_double_increment :
    lookupD (executeWithRetry { max_retries := 0 } (fun _ => .exc boomExc) 0
        initGenState).2.1.error_stats "total_errors" 0 = 1 ∧
      (executeWithRetry { max_retries := 0 } (fun _ => .exc boomExc) 0
        initGenState).2.1.consecutive_errors = 2 := by decide

/-! ### C9: the zero-request run -/

/-- C9 counterexample: for a run in which no request was recorded, the
summary's `connection_success_rate` — a rate value of the summary — is 100,
not 0. -/
theorem zero_run_connection_rate_not_zero :
    (get_summary_metrics (initCollector 0)).1.connection_success_rate ≠ 0 := by decide

/-- C9 amended: for a fresh collector with no recorded request, every
counter, RPS value, success rate, percentile and response-time statistic of
the summary is 0 — except `connection_success_rate`, which defaults to 100
when no connection was recorded.  Every division in the source is guarded
by a positivity test on its denominator, which the embedding mirrors: each
branch below is the guard's else-constant. -/
theorem zero_run_summary (t0 : ℚ) :
    (get_summary_metrics (initCollector t0)).1.total_requests = 0 ∧
    (get_summary_metrics (initCollector t0)).1.successful_requests = 0 ∧
    (get_summary_metrics (initCollector t0)).1.failed_requests = 0 ∧
    (get_summary_metrics (initCollector t0)).1.success_rate = 0 ∧
    (get_summary_metrics (initCollector t0)).1.test_duration = 0 ∧
    (get_summary_metrics (initCollector t0)).1.rps = 0 ∧
    (get_summary_metrics (initCollector t0)).1.successful_rps = 0 ∧
    (get_summary_metrics (initCollector t0)).1.failed_rps = 0 ∧
    (get_summary_metrics (initCollector t0)).1.max_rps = 0 ∧
    (get_summary_metrics (initCollector t0)).1.min_rps = 0 ∧
    (get_summary_metrics (initCollector t0)).1.avg_second_rps = 0 ∧
    (get_summary_metrics (initCollector t0)).1.p95_rps = 0 ∧
    (get_summary_metrics (initCollector t0)).1.max_success_rps = 0 ∧
    (get_summary_metrics (initCollector t0)).1.avg_success_rps = 0 ∧
    (get_summary_metrics (initCollector t0)).1.max_failed_rps = 0 ∧
    (get_summary_metrics (initCollector t0)).1.avg_failed_rps = 0 ∧
    (get_summary_metrics (initCollector t0)).1.throughput_variation_sq = 0 ∧
    (get_summary_metrics (initCollector t0)).1.avg_response_time = 0 ∧
    (get_summary_metrics (initCollector t0)).1.min_response_time = 0 ∧
    (get_summary_metrics (initCollector t0)).1.max_response_time = 0 ∧
    (get_summary_metrics (initCollector t0)).1.p50_response_time = 0 ∧
    (get_summary_metrics (initCollector t0)).1.p90_response_time = 0 ∧
    (get_summary_metrics (initCollector t0)).1.p95_response_time = 0 ∧
    (get_summary_metrics (initCollector t0)).1.p99_response_time = 0 ∧
    (get_summary_metrics (initCollector t0)).1.p999_response_time = 0 ∧
    (get_summary_metrics (initCollector t0)).1.response_time_variance = 0 ∧
    (get_summary_metrics (initCollector t0)).1.connection_success_rate = 100 := by
  refine ⟨rfl, rfl, rfl, rfl, rfl, rfl, rfl, rfl, rfl, rfl, rfl, rfl, rfl, rfl,
    rfl, rfl, rfl, rfl, rfl, rfl, rfl, rfl, rfl, rfl, rfl, rfl, rfl⟩

/-! ### C6 counterexample: the snapshot mutates the stored samples -/

/-- A collector that recorded two successes with response times 5 then 3:
its stored sample list is the unsorted `[5, 3]`. -/
def twoSampleState : CollectorState :=
  applyRecords (initCollector 0)
    [{ start_time := 0, end_time := 1, response_time := 5 },
     { start_time := 0, end_time := 1, response_time := 3 }]

/-- C6 counterexample: `get_summary_metrics` does not leave the metrics
state unchanged — on a state whose recorded response times are `[5, 3]` it
reorders the stored sample list in place (line 257's
`response_times.sort()`), so the state after the snapshot differs from the
state before it. -/
theorem snapshot_mutates_state :
    (get_summary_metrics twoSampleState).2 ≠ twoSampleState := by decide

/-! ### Lemmas about `recordError` and the retry loop -/

/-- The kind normalization of `_record_error`: mapped kind, or
`other_error` for kinds outside the mapping. -/
def normOf (t : String) : String := (lookupStr errorTypeMapping t).getD "other_error"

/-- Every classifier output normalizes away from the bookkeeping keys and
from `system_error`, stays distinct from its own raw tag when the raw tag is
non-standard, and normalizes to a key of the initial statistics dict. -/
theorem actual_kind_facts : ∀ t ∈ actualErrorKinds,
    normOf t ≠ "total_errors" ∧ normOf t ≠ "system_error" ∧ t ≠ "total_errors" ∧
    (t ∉ stdErrorTypes → t ≠ normOf t) ∧ hasKey initErrorStats (normOf t) = true := by
  decide

/-- `_record_error` leaves `stop_event` unchanged whenever the normalized
kind is not `system_error`. -/
theorem recordError_stop (t m : String) (s : GenState) (h : normOf t ≠ "system_error") :
    (recordError t m s).stop_event = s.stop_event := by
  simp only [normOf] at h
  simp only [recordError]
  split_ifs <;> simp_all

/-- `_record_error` appends the message to the error-details counts and
leaves the other non-statistics fields alone. -/
theorem recordError_details (t m : String) (s : GenState) :
    (recordError t m s).error_details = bumpAssoc s.error_details m := by
  simp only [recordError]
  split_ifs <;> rfl

/-- `_record_error` bumps both consecutive counters by one (and syncs
them). -/
theorem recordError_consecutive (t m : String) (s : GenState) :
    (recordError t m s).consecutive_errors = s.consecutive_errors + 1 ∧
    (recordError t m s).consecutive_error_count = s.consecutive_errors + 1 := by
  simp only [recordError]
  split_ifs <;> exact ⟨rfl, rfl⟩

/-- `_record_error` does not touch the phase bookkeeping. -/
theorem recordError_phases (t m : String) (s : GenState) :
    (recordError t m s).after_tasks_completed = s.after_tasks_completed ∧
    (recordError t m s).before_tasks_completed = s.before_tasks_completed ∧
    (recordError t m s).before_results = s.before_results ∧
    (recordError t m s).after_results = s.after_results := by
  simp only [recordError]
  split_ifs <;> exact ⟨rfl, rfl, rfl, rfl⟩

/-- `_record_error` increments the `total_errors` count by exactly one. -/
theorem recordError_total (t m : String) (s : GenState)
    (h1 : normOf t ≠ "total_errors") (h2 : t ≠ "total_errors") :
    lookupD (recordError t m s).error_stats "total_errors" 0
      = lookupD s.error_stats "total_errors" 0 + 1 := by
  simp only [normOf] at h1
  simp only [recordError]
  split_ifs <;>
    simp only [lookupD_bumpAssoc_other _ h1, lookupD_bumpAssoc_other _ h2,
      lookupD_bumpAssoc_other _ (show ("other_error" : String) ≠ "total_errors" by decide),
      lookupD_bumpAssoc_self]

/-- `_record_error` increments the normalized kind's count by exactly one,
provided the normalized kind is already a key (as in the initial stats) and
the raw tag is either standard or distinct from the normalized one. -/
theorem recordError_norm_lookup (t m : String) (s : GenState)
    (hk : hasKey s.error_stats (normOf t) = true)
    (hnt : normOf t ≠ "total_errors")
    (hraw : t ∉ stdErrorTypes → t ≠ normOf t) :
    lookupD (recordError t m s).error_stats (normOf t) 0
      = lookupD s.error_stats (normOf t) 0 + 1 := by
  have hk1 : hasKey (bumpAssoc s.error_stats "total_errors") (normOf t) = true :=
    hasKey_bumpAssoc_of _ _ hk
  have htn : ("total_errors" : String) ≠ normOf t := fun hc => hnt hc.symm
  simp only [normOf] at hk1 htn hraw ⊢
  simp only [recordError]
  split_ifs <;>
    first
    | exact absurd hk1 (by assumption)
    | rw [lookupD_bumpAssoc_self, lookupD_bumpAssoc_other _ htn]
    | rw [lookupD_bumpAssoc_other _ (hraw (by assumption)), lookupD_bumpAssoc_self,
        lookupD_bumpAssoc_other _ htn]

/-- `_record_error` keeps the normalized kind's key present under the same
conditions. -/
theorem recordError_norm_hasKey (t m : String) (s : GenState)
    (hk : hasKey s.error_stats (normOf t) = true) :
    hasKey (recordError t m s).error_stats (normOf t) = true := by
  have hk1 : hasKey (bumpAssoc s.error_stats "total_errors") (normOf t) = true :=
    hasKey_bumpAssoc_of _ _ hk
  simp only [normOf] at hk1 ⊢
  simp only [recordError]
  split_ifs <;>
    first
    | exact hasKey_bumpAssoc_self _ _
    | exact hasKey_bumpAssoc_of _ _ (hasKey_bumpAssoc_self _ _)

/-- `lookupD` on the freshly initialized statistics is 0 for every key. -/
theorem lookupD_initErrorStats (t : String) : lookupD initErrorStats t 0 = 0 := by
  simp only [initErrorStats, lookupD]
  split_ifs <;> rfl

/-- One failing attempt bumps both consecutive counters by exactly two and
syncs them. -/
theorem failStep_consecutive (e : PyExc) (s : GenState) :
    (failStep e s).consecutive_errors = s.consecutive_errors + 2 ∧
    (failStep e s).consecutive_error_count = s.consecutive_errors + 2 := by
  have h := recordError_consecutive (classifyErrorType e) e.msg s
  simp only [failStep]
  constructor <;> simp [h.1, h.2]

/-- One failing attempt appends the message to the details counts. -/
theorem failStep_details (e : PyExc) (s : GenState) :
    (failStep e s).error_details = bumpAssoc s.error_details e.msg := by
  simp only [failStep]
  simp [recordError_details]

/-- One failing attempt cannot set the stop event: no classifier output
normalizes to `system_error`. -/
theorem failStep_stop (e : PyExc) (s : GenState) :
    (failStep e s).stop_event = s.stop_event := by
  have h := actual_kind_facts _ (classify_mem e)
  simp only [failStep]
  simp [recordError_stop _ _ _ h.2.1]

/-- One failing attempt bumps `total_errors` by exactly one. -/
theorem failStep_total (e : PyExc) (s : GenState) :
    lookupD (failStep e s).error_stats "total_errors" 0
      = lookupD s.error_stats "total_errors" 0 + 1 := by
  have h := actual_kind_facts _ (classify_mem e)
  simp only [failStep]
  simp [recordError_total _ _ _ h.1 h.2.2.1]

/-- One failing attempt bumps the normalized kind's count by exactly one and
keeps its key present. -/
theorem failStep_norm (e : PyExc) (s : GenState)
    (hk : hasKey s.error_stats (normOf (classifyErrorType e)) = true) :
    lookupD (failStep e s).error_stats (normOf (classifyErrorType e)) 0
      = lookupD s.error_stats (normOf (classifyErrorType e)) 0 + 1 ∧
    hasKey (failStep e s).error_stats (normOf (classifyErrorType e)) = true := by
  have h := actual_kind_facts _ (classify_mem e)
  simp only [failStep]
  constructor
  · simp [recordError_norm_lookup _ e.msg _ hk h.1 h.2.2.2.1]
  · simp [recordError_norm_hasKey _ e.msg _ hk]

/-- Iterated failing attempts: both consecutive counters grow by two per
attempt when they start synchronized. -/
theorem iter_failStep_consecutive (e : PyExc) (n : Nat) (s : GenState)
    (hsync : s.consecutive_error_count = s.consecutive_errors) :
    ((failStep e)^[n] s).consecutive_errors = s.consecutive_errors + 2 * n ∧
    ((failStep e)^[n] s).consecutive_error_count = s.consecutive_errors + 2 * n := by
  induction n generalizing s with
  | zero =>
    refine ⟨by simp, ?_⟩
    simpa using hsync
  | succ n ih =>
    rw [Function.iterate_succ_apply]
    have hstep := failStep_consecutive e s
    have hih := ih (failStep e s) (hstep.2.trans hstep.1.symm)
    constructor
    · rw [hih.1, hstep.1]; ring
    · rw [hih.2, hstep.1]; ring

/-- Iterated failing attempts bump the details count for the message once
per attempt. -/
theorem iter_failStep_details (e : PyExc) (n : Nat) (s : GenState) :
    lookupD ((failStep e)^[n] s).error_details e.msg 0
      = lookupD s.error_details e.msg 0 + n := by
  induction n generalizing s with
  | zero => simp
  | succ n ih =>
    rw [Function.iterate_succ_apply, ih, failStep_details, lookupD_bumpAssoc_self]
    omega

/-- Iterated failing attempts bump `total_errors` once per attempt. -/
theorem iter_failStep_total (e : PyExc) (n : Nat) (s : GenState) :
    lookupD ((failStep e)^[n] s).error_stats "total_errors" 0
      = lookupD s.error_stats "total_errors" 0 + n := by
  induction n generalizing s with
  | zero => simp
  | succ n ih =>
    rw [Function.iterate_succ_apply, ih, failStep_total]
    omega

/-- Iterated failing attempts bump the normalized kind's count once per
attempt. -/
theorem iter_failStep_norm (e : PyExc) (n : Nat) (s : GenState)
    (hk : hasKey s.error_stats (normOf (classifyErrorType e)) = true) :
    lookupD ((failStep e)^[n] s).error_stats (normOf (classifyErrorType e)) 0
      = lookupD s.error_stats (normOf (classifyErrorType e)) 0 + n := by
  induction n generalizing s with
  | zero => simp
  | succ n ih =>
    have hstep := failStep_norm e s hk
    rw [Function.iterate_succ_apply, ih (failStep e s) hstep.2, hstep.1]
    omega

/-- Iterated failing attempts never touch the stop event. -/
theorem iter_failStep_stop (e : PyExc) (n : Nat) (s : GenState) :
    ((failStep e)^[n] s).stop_event = s.stop_event := by
  induction n generalizing s with
  | zero => simp
  | succ n ih => rw [Function.iterate_succ_apply, ih, failStep_stop]

/-- The number of attempts `_execute_with_retry` makes on a task whose every
attempt raises `e`: the full budget when the retry decision approves `e`,
otherwise a single attempt. -/
def finalFailAttempts (cfg : TestConfig) (e : PyExc) : Nat :=
  if shouldRetry cfg e then cfg.max_retries + 1 else 1

/-- Characterization of the retry loop on an always-raising task: it returns
`None` after `fuel + 1` attempts (retryable) or one attempt, applying
`failStep` once per attempt. -/
theorem retryGo_allfail (cfg : TestConfig) (e : PyExc) :
    ∀ (fuel attempt k : Nat) (s : GenState), attempt + fuel = cfg.max_retries →
    retryGo cfg (fun _ => .exc e) k attempt fuel s =
      (.pnone, (failStep e)^[if shouldRetry cfg e then fuel + 1 else 1] s,
        attempt + (if shouldRetry cfg e then fuel + 1 else 1)) := by
  intro fuel
  induction fuel with
  | zero =>
    intro attempt k s h
    have hlt : ¬(attempt < cfg.max_retries) := by omega
    rw [retryGo]
    simp [hlt]
  | succ f ih =>
    intro attempt k s h
    have hlt : attempt < cfg.max_retries := by omega
    rw [retryGo]
    by_cases hr : shouldRetry cfg e = true
    · have hg : (shouldRetry cfg e && decide (attempt < cfg.max_retries)) = true := by
        simp [hr, hlt]
      dsimp only
      rw [if_pos hg]
      rw [ih (attempt + 1) k (failStep e s) (by omega)]
      have harith : attempt + 1 + (f + 1) = attempt + (f + 1 + 1) := by omega
      rw [if_pos hr, if_pos hr, ← Function.iterate_succ_apply, harith]
    · simp [hr, Function.iterate_one]

/-- Characterization of `_execute_with_retry` on an always-raising task. -/
theorem executeWithRetry_allfail (cfg : TestConfig) (e : PyExc) (k : Nat) (s : GenState) :
    executeWithRetry cfg (fun _ => .exc e) k s =
      (.pnone,
       (failStep e)^[finalFailAttempts cfg e]
         { s with consecutive_error_count := 0, consecutive_errors := 0 },
       finalFailAttempts cfg e) := by
  simp only [executeWithRetry]
  rw [retryGo_allfail cfg e cfg.max_retries 0 k _ (by omega)]
  simp [finalFailAttempts]

/-- If the retry loop returns anything but `None`, the last attempt
succeeded and reset both consecutive counters to zero. -/
theorem retryGo_pnone_or_zero (cfg : TestConfig) (stream : Nat → CallResult) (k : Nat) :
    ∀ (fuel attempt : Nat) (s : GenState),
      (retryGo cfg stream k attempt fuel s).1 = .pnone ∨
      ((retryGo cfg stream k attempt fuel s).2.1.consecutive_errors = 0 ∧
       (retryGo cfg stream k attempt fuel s).2.1.consecutive_error_count = 0) := by
  intro fuel
  induction fuel with
  | zero =>
    intro attempt s
    rw [retryGo]
    cases hc : stream (k + attempt) with
    | ok v => right; simp
    | exc e =>
      left
      dsimp only
      split <;> rfl
  | succ f ih =>
    intro attempt s
    rw [retryGo]
    cases hc : stream (k + attempt) with
    | ok v => right; simp
    | exc e =>
      by_cases hg : (shouldRetry cfg e && decide (attempt < cfg.max_retries)) = true
      · dsimp only
        rw [if_pos hg]
        exact ih (attempt + 1) (failStep e s)
      · dsimp only
        rw [if_neg hg]
        left
        rfl

/-- `_execute_with_retry` leaves both consecutive counters at zero whenever
it returns a non-`None` value. -/
theorem executeWithRetry_ne_pnone (cfg : TestConfig) (stream : Nat → CallResult)
    (k : Nat) (s : GenState)
    (h : (executeWithRetry cfg stream k s).1 ≠ .pnone) :
    (executeWithRetry cfg stream k s).2.1.consecutive_errors = 0 := by
  simp only [executeWithRetry] at h ⊢
  rcases retryGo_pnone_or_zero cfg stream k cfg.max_retries 0
      { s with consecutive_error_count := 0, consecutive_errors := 0 } with h1 | h2
  · exact absurd h1 h
  · exact h2.1

/-- C2 amended: when every attempt of a task raises, `_execute_with_retry`
returns Python `None` — not an unsuccessful outcome record — after
`finalFailAttempts` attempts; the classified kind and the message are not
carried in the return value but recorded, once per attempt, in the
generator's error statistics: the per-message details count, the
`total_errors` count, and the normalized classified kind's count. -/
theorem retry_final_failure_amended (cfg : TestConfig) (e : PyExc) (k : Nat) :
    (executeWithRetry cfg (fun _ => .exc e) k initGenState).1 = .pnone ∧
    (executeWithRetry cfg (fun _ => .exc e) k initGenState).2.2 = finalFailAttempts cfg e ∧
    lookupD (executeWithRetry cfg (fun _ => .exc e) k initGenState).2.1.error_details
        e.msg 0 = finalFailAttempts cfg e ∧
    lookupD (executeWithRetry cfg (fun _ => .exc e) k initGenState).2.1.error_stats
        "total_errors" 0 = finalFailAttempts cfg e ∧
    lookupD (executeWithRetry cfg (fun _ => .exc e) k initGenState).2.1.error_stats
        (normOf (classifyErrorType e)) 0 = finalFailAttempts cfg e := by
  rw [executeWithRetry_allfail]
  have hkinit : hasKey ({ initGenState with consecutive_error_count := 0, consecutive_errors := 0 } : GenState).error_stats (normOf (classifyErrorType e)) = true :=
    (actual_kind_facts _ (classify_mem e)).2.2.2.2
  refine ⟨rfl, rfl, ?_, ?_, ?_⟩
  · rw [iter_failStep_details]
    simp [initGenState, lookupD]
  · rw [iter_failStep_total]
    have hz : lookupD ({ initGenState with consecutive_error_count := 0, consecutive_errors := 0 } : GenState).error_stats "total_errors" 0 = 0 :=
      lookupD_initErrorStats _
    rw [hz]
    omega
  · rw [iter_failStep_norm _ _ _ hkinit]
    have hz : lookupD ({ initGenState with consecutive_error_count := 0, consecutive_errors := 0 } : GenState).error_stats (normOf (classifyErrorType e)) 0 = 0 :=
      lookupD_initErrorStats _
    rw [hz]
    omega

/-- C7 amended: within one `_execute_with_retry` call the consecutive-error
counter is reset to zero on entry (line 346) and after every successful
attempt (line 358) — so it is 0 whenever the call returns a non-`None`
value, regardless of prior history — and each failing attempt increments it
twice (once inside `_record_error` and once in the retry loop), so after a
final failure both counters read `2 × finalFailAttempts`, not the number of
failures recorded since the most recent success. -/
theorem consecutive_counter_amended (cfg : TestConfig) (s : GenState) (e : PyExc)
    (stream : Nat → CallResult) (k k' : Nat) :
    (executeWithRetry cfg (fun _ => .exc e) k s).2.1.consecutive_errors
      = 2 * finalFailAttempts cfg e ∧
    (executeWithRetry cfg (fun _ => .exc e) k s).2.1.consecutive_error_count
      = 2 * finalFailAttempts cfg e ∧
    ((executeWithRetry cfg stream k' s).1 ≠ .pnone →
      (executeWithRetry cfg stream k' s).2.1.consecutive_errors = 0) := by
  rw [executeWithRetry_allfail]
  have h := iter_failStep_consecutive e (finalFailAttempts cfg e)
    { s with consecutive_error_count := 0, consecutive_errors := 0 } rfl
  refine ⟨?_, ?_, executeWithRetry_ne_pnone cfg stream k' s⟩
  · rw [h.1]; simp
  · rw [h.2]; simp

/-- Witness for `consecutive_counter_amended`: a concrete run whose single
attempt succeeds returns a non-`None` value and leaves the counter at 0. -/
theorem consecutive_counter_amended_witness :
    (executeWithRetry { max_retries := 1 } (fun _ => .ok .pyNone) 0 initGenState).1
        ≠ .pnone ∧
    (executeWithRetry { max_retries := 1 } (fun _ => .ok .pyNone) 0
        initGenState).2.1.consecutive_errors = 0 :=
  ⟨by decide,
   (consecutive_counter_amended { max_retries := 1 } initGenState boomExc
     (fun _ => .ok .pyNone) 0 0).2.2 (by decide)⟩

/-! ### C4: `total == success + failure` -/

/-- One `record_request` call preserves the counter identity. -/
theorem record_request_counter (s : CollectorState) (a : RecordArgs)
    (h : s.total_requests = s.successful_requests + s.failed_requests) :
    (record_request s a).total_requests
      = (record_request s a).successful_requests + (record_request s a).failed_requests := by
  cases htx : a.transaction_name <;> cases hsucc : a.success <;>
    cases hsc : a.status_code <;> cases herr : a.error <;>
    simp [record_request, htx, hsucc, hsc, herr] <;> split_ifs <;> simp <;> omega

/-- The counter identity holds after any sequence of records from any state
satisfying it. -/
theorem applyRecords_counter (l : List RecordArgs) : ∀ (s : CollectorState),
    s.total_requests = s.successful_requests + s.failed_requests →
    (applyRecords s l).total_requests
      = (applyRecords s l).successful_requests + (applyRecords s l).failed_requests := by
  induction l with
  | nil => intro s h; exact h
  | cons a l ih =>
    intro s h
    exact ih (record_request s a) (record_request_counter s a h)

/-- C4: after every sequence of `record_request` calls on a fresh collector
— hence after each individual call, since the sequence is arbitrary —
`total_requests` equals `successful_requests + failed_requests`; in
particular the equality holds at end-of-run. -/
theorem metrics_total_eq_success_plus_failure (t0 : ℚ) (l : List RecordArgs) :
    (applyRecords (initCollector t0) l).total_requests
      = (applyRecords (initCollector t0) l).successful_requests
        + (applyRecords (initCollector t0) l).failed_requests :=
  applyRecords_counter l (initCollector t0) rfl

/-! ### C8: percentile monotonicity -/

/-- `pyTrunc` is the floor on nonnegative arguments. -/
theorem pyTrunc_of_nonneg {q : ℚ} (h : 0 ≤ q) : pyTrunc q = ⌊q⌋ := by
  simp [pyTrunc, not_lt.mpr h]

/-- Auxiliary: the seed of a `foldl max` is below the fold. -/
theorem le_foldl_max (t : List ℚ) : ∀ b : ℚ, b ≤ t.foldl max b := by
  induction t with
  | nil => intro b; exact le_refl b
  | cons c t ih =>
    intro b
    exact le_trans (le_max_left b c) (ih (max b c))

/-- Auxiliary: every member of the tail is below the fold. -/
theorem mem_le_foldl_max (t : List ℚ) : ∀ (b x : ℚ), x ∈ t → x ≤ t.foldl max b := by
  induction t with
  | nil => intro b x hx; cases hx
  | cons c t ih =>
    intro b x hx
    rcases List.mem_cons.mp hx with rfl | hx
    · exact le_trans (le_max_right b x) (le_foldl_max t (max b x))
    · exact ih (max b c) x hx

/-- Python `max(l)` bounds every member of `l`. -/
theorem le_pyMax {l : List ℚ} {x : ℚ} (hx : x ∈ l) : x ≤ pyMax l := by
  cases l with
  | nil => cases hx
  | cons h t =>
    rcases List.mem_cons.mp hx with rfl | hx
    · exact le_foldl_max t x
    · exact mem_le_foldl_max t h x hx

/-- The clamped nearest-rank index used by `_calculate_percentile` is within
bounds for a nonempty sorted list and a nonnegative percentile. -/
theorem calcPercentile_index_lt (l : List ℚ) (p : ℚ) (hne : l ≠ []) (hp : 0 ≤ p) :
    (if pyTrunc ((l.length : ℚ) * p / 100) ≥ (l.length : Int)
      then (l.length : Int) - 1
      else pyTrunc ((l.length : ℚ) * p / 100)).toNat < l.length := by
  have hlen : 1 ≤ l.length := List.length_pos.mpr hne
  have hq : (0 : ℚ) ≤ (l.length : ℚ) * p / 100 := by positivity
  have h0 : 0 ≤ pyTrunc ((l.length : ℚ) * p / 100) := by
    rw [pyTrunc_of_nonneg hq]
    exact Int.floor_nonneg.mpr hq
  split_ifs with hge
  · omega
  · omega

/-- The percentile value of a nonempty list is an element of the list. -/
theorem calcPercentile_mem (l : List ℚ) (p : ℚ) (hne : l ≠ []) (hp : 0 ≤ p) :
    calcPercentile l p ∈ l := by
  have hempty : l.isEmpty = false := by
    cases l with
    | nil => exact absurd rfl hne
    | cons a t => rfl
  have hidx := calcPercentile_index_lt l p hne hp
  simp only [calcPercentile, hempty, Bool.false_eq_true, if_false]
  rw [List.getD_eq_getElem l 0 hidx]
  exact List.getElem_mem hidx

/-- Percentile values are monotone in the percentile for a sorted list. -/
theorem calcPercentile_mono (l : List ℚ) (hs : l.Sorted (· ≤ ·)) {p p' : ℚ}
    (hp : 0 ≤ p) (hpp : p ≤ p') : calcPercentile l p ≤ calcPercentile l p' := by
  by_cases hl : l = []
  · subst hl
    simp [calcPercentile]
  · have hempty : l.isEmpty = false := by
      cases l with
      | nil => exact absurd rfl hl
      | cons a t => rfl
    have hp' : 0 ≤ p' := le_trans hp hpp
    have hq : (0 : ℚ) ≤ (l.length : ℚ) * p / 100 := by positivity
    have hq' : (0 : ℚ) ≤ (l.length : ℚ) * p' / 100 := by positivity
    have hqq : (l.length : ℚ) * p / 100 ≤ (l.length : ℚ) * p' / 100 := by gcongr
    have hmono : pyTrunc ((l.length : ℚ) * p / 100)
        ≤ pyTrunc ((l.length : ℚ) * p' / 100) := by
      rw [pyTrunc_of_nonneg hq, pyTrunc_of_nonneg hq']
      exact Int.floor_le_floor hqq
    have h0 : 0 ≤ pyTrunc ((l.length : ℚ) * p / 100) := by
      rw [pyTrunc_of_nonneg hq]
      exact Int.floor_nonneg.mpr hq
    have hidx := calcPercentile_index_lt l p hl hp
    have hidx' := calcPercentile_index_lt l p' hl hp'
    have hle : (if pyTrunc ((l.length : ℚ) * p / 100) ≥ (l.length : Int)
          then (l.length : Int) - 1 else pyTrunc ((l.length : ℚ) * p / 100)).toNat
        ≤ (if pyTrunc ((l.length : ℚ) * p' / 100) ≥ (l.length : Int)
          then (l.length : Int) - 1 else pyTrunc ((l.length : ℚ) * p' / 100)).toNat := by
      split_ifs with hg1 hg2 hg2 <;> omega
    simp only [calcPercentile, hempty, Bool.false_eq_true, if_false]
    rw [List.getD_eq_getElem l 0 hidx, List.getD_eq_getElem l 0 hidx']
    have h2 : l.get ⟨_, hidx⟩ ≤ l.get ⟨_, hidx'⟩ :=
      hs.rel_get_of_le (Fin.mk_le_mk.mpr hle)
    simpa [List.get_eq_getElem] using h2

/-- C8: in every summary, the percentile values are monotone:
`p50 ≤ p90 ≤ p95 ≤ p99 ≤ p99.9 ≤ max_response_time`.  The summary computes
each percentile by nearest rank over the sorted sample list and takes the
maximum over the same list, so larger percentiles index later positions. -/
theorem percentiles_monotone (s : CollectorState) :
    (get_summary_metrics s).1.p50_response_time
      ≤ (get_summary_metrics s).1.p90_response_time ∧
    (get_summary_metrics s).1.p90_response_time
      ≤ (get_summary_metrics s).1.p95_response_time ∧
    (get_summary_metrics s).1.p95_response_time
      ≤ (get_summary_metrics s).1.p99_response_time ∧
    (get_summary_metrics s).1.p99_response_time
      ≤ (get_summary_metrics s).1.p999_response_time ∧
    (get_summary_metrics s).1.p999_response_time
      ≤ (get_summary_metrics s).1.max_response_time := by
  have hsorted : (sortRats s.response_times).Sorted (· ≤ ·) :=
    List.sorted_insertionSort _ _
  simp only [get_summary_metrics, mkSummary]
  by_cases he : (sortRats s.response_times).isEmpty
  · simp [he]
  · have hne : sortRats s.response_times ≠ [] := by
      intro hnil
      rw [hnil] at he
      exact he rfl
    simp only [he, Bool.false_eq_true, if_false]
    refine ⟨?_, ?_, ?_, ?_, ?_⟩
    · exact calcPercentile_mono _ hsorted (by norm_num) (by norm_num)
    · exact calcPercentile_mono _ hsorted (by norm_num) (by norm_num)
    · exact calcPercentile_mono _ hsorted (by norm_num) (by norm_num)
    · exact calcPercentile_mono _ hsorted (by norm_num) (by norm_num)
    · exact le_pyMax (calcPercentile_mem _ _ hne (by norm_num))

/-! ### C6 amended: the snapshot's only mutation is the in-place sort -/

/-- Sorting an already sorted list is the identity, so `sortRats` is
idempotent. -/
theorem sortRats_idem (l : List ℚ) : sortRats (sortRats l) = sortRats l :=
  List.Sorted.insertionSort_eq (List.sorted_insertionSort _ l)

/-- C6 amended: `get_summary_metrics` is not pure — it replaces the stored
response-time list by its sorted permutation (line 257) — but that is its
only mutation, and it is idempotent: a second call with no intervening
record returns an equal summary and leaves the state unchanged. -/
theorem snapshot_sort_only_and_idempotent (s : CollectorState) :
    (get_summary_metrics s).2
      = { s with response_times := sortRats s.response_times } ∧
    (get_summary_metrics ((get_summary_metrics s).2)).1 = (get_summary_metrics s).1 ∧
    (get_summary_metrics ((get_summary_metrics s).2)).2 = (get_summary_metrics s).2 := by
  refine ⟨rfl, ?_, ?_⟩
  · show (mkSummary { s with response_times := sortRats s.response_times }
        (sortRats (sortRats s.response_times)) : SummaryMetrics)
      = mkSummary s (sortRats s.response_times)
    rw [sortRats_idem]
    rfl
  · show ({ { s with response_times := sortRats s.response_times } with
        response_times := sortRats (sortRats s.response_times) } : CollectorState)
      = { s with response_times := sortRats s.response_times }
    rw [sortRats_idem]

/-! ### Frame lemmas for the coordinator phases -/

/-- One failing attempt does not touch the phase bookkeeping. -/
theorem failStep_phases (e : PyExc) (s : GenState) :
    (failStep e s).after_tasks_completed = s.after_tasks_completed ∧
    (failStep e s).before_tasks_completed = s.before_tasks_completed ∧
    (failStep e s).before_results = s.before_results ∧
    (failStep e s).after_results = s.after_results := by
  have h := recordError_phases (classifyErrorType e) e.msg s
  refine ⟨?_, ?_, ?_, ?_⟩ <;> simp [failStep, h.1, h.2.1, h.2.2.1, h.2.2.2]

/-- The retry loop never touches the stop event or the phase bookkeeping. -/
theorem retryGo_frame (cfg : TestConfig) (stream : Nat → CallResult) (k : Nat) :
    ∀ (fuel attempt : Nat) (s : GenState),
    (retryGo cfg stream k attempt fuel s).2.1.stop_event = s.stop_event ∧
    (retryGo cfg stream k attempt fuel s).2.1.after_tasks_completed
      = s.after_tasks_completed ∧
    (retryGo cfg stream k attempt fuel s).2.1.before_tasks_completed
      = s.before_tasks_completed ∧
    (retryGo cfg stream k attempt fuel s).2.1.before_results = s.before_results := by
  intro fuel
  induction fuel with
  | zero =>
    intro attempt s
    rw [retryGo]
    cases hc : stream (k + attempt) with
    | ok v => exact ⟨rfl, rfl, rfl, rfl⟩
    | exc e =>
      have hf := failStep_stop e s
      have hp := failStep_phases e s
      dsimp only
      split
      · exact ⟨hf, hp.1, hp.2.1, hp.2.2.1⟩
      · exact ⟨hf, hp.1, hp.2.1, hp.2.2.1⟩
  | succ f ih =>
    intro attempt s
    rw [retryGo]
    cases hc : stream (k + attempt) with
    | ok v => exact ⟨rfl, rfl, rfl, rfl⟩
    | exc e =>
      have hf := failStep_stop e s
      have hp := failStep_phases e s
      dsimp only
      split
      · have hih := ih (attempt + 1) (failStep e s)
        exact ⟨hih.1.trans hf, hih.2.1.trans hp.1, hih.2.2.1.trans hp.2.1,
          hih.2.2.2.trans hp.2.2.1⟩
      · exact ⟨hf, hp.1, hp.2.1, hp.2.2.1⟩

/-- `_execute_with_retry` never touches the stop event or the phase
bookkeeping. -/
theorem executeWithRetry_frame (cfg : TestConfig) (stream : Nat → CallResult)
    (k : Nat) (s : GenState) :
    (executeWithRetry cfg stream k s).2.1.stop_event = s.stop_event ∧
    (executeWithRetry cfg stream k s).2.1.after_tasks_completed
      = s.after_tasks_completed ∧
    (executeWithRetry cfg stream k s).2.1.before_tasks_completed
      = s.before_tasks_completed ∧
    (executeWithRetry cfg stream k s).2.1.before_results = s.before_results := by
  simp only [executeWithRetry]
  exact retryGo_frame cfg stream k cfg.max_retries 0 _

/-- Whenever the retry loop returns a dict as-is, that dict's `success`
entry is truthy or absent: the source only returns the task's own dict
after checking `result.get('success', True)`. -/
theorem retryGo_pdict (cfg : TestConfig) (stream : Nat → CallResult) (k : Nat) :
    ∀ (fuel attempt : Nat) (s : GenState) (d : PyDict),
    (retryGo cfg stream k attempt fuel s).1 = .pdict d → d.success.getD true = true := by
  intro fuel
  induction fuel with
  | zero =>
    intro attempt s d h
    rw [retryGo] at h
    cases hc : stream (k + attempt) with
    | ok v =>
      rw [hc] at h
      dsimp only at h
      cases v with
      | pyDictV dd =>
        by_cases hd : dd.success.getD true = true
        · simp only [retrySuccessVal, hd, if_true] at h
          cases h
          exact hd
        · simp only [retrySuccessVal, hd, if_false] at h
          cases h
      | pyResp c => simp [retrySuccessVal] at h
      | pyNone => simp [retrySuccessVal] at h
      | pyOther => simp [retrySuccessVal] at h
    | exc e =>
      rw [hc] at h
      dsimp only at h
      split at h <;> cases h
  | succ f ih =>
    intro attempt s d h
    rw [retryGo] at h
    cases hc : stream (k + attempt) with
    | ok v =>
      rw [hc] at h
      dsimp only at h
      cases v with
      | pyDictV dd =>
        by_cases hd : dd.success.getD true = true
        · simp only [retrySuccessVal, hd, if_true] at h
          cases h
          exact hd
        · simp only [retrySuccessVal, hd, if_false] at h
          cases h
      | pyResp c => simp [retrySuccessVal] at h
      | pyNone => simp [retrySuccessVal] at h
      | pyOther => simp [retrySuccessVal] at h
    | exc e =>
      rw [hc] at h
      dsimp only at h
      split at h
      · exact ih (attempt + 1) (failStep e s) d h
      · cases h

/-- Same invariant for `_execute_with_retry`. -/
theorem executeWithRetry_pdict (cfg : TestConfig) (stream : Nat → CallResult)
    (k : Nat) (s : GenState) (d : PyDict)
    (h : (executeWithRetry cfg stream k s).1 = .pdict d) :
    d.success.getD true = true := by
  simp only [executeWithRetry] at h
  exact retryGo_pdict cfg stream k cfg.max_retries 0 _ d h

/-- `_execute_after_tasks` always completes the after phase and never
touches the stop event. -/
theorem execAfterTasks_props (cfg : TestConfig) (a : Nat → CallResult) (ka : Nat)
    (s : GenState) :
    (execAfterTasks cfg a ka s).1.after_tasks_completed = true ∧
    (execAfterTasks cfg a ka s).1.stop_event = s.stop_event := by
  unfold execAfterTasks
  cases a ka <;> exact ⟨rfl, rfl⟩

/-- On every reachable path, `_execute_before_tasks` leaves the stop event
and the after-phase flag unchanged: the only stopping branch requires the
retry executor to return a dict whose `success` entry is falsy, which
`retryGo_pdict` rules out. -/
theorem execBeforeTasks_frame (cfg : TestConfig) (b : Nat → CallResult) (k : Nat)
    (s : GenState) :
    (execBeforeTasks cfg b k s).2.1.stop_event = s.stop_event ∧
    (execBeforeTasks cfg b k s).2.1.after_tasks_completed = s.after_tasks_completed := by
  have hframe := executeWithRetry_frame cfg b (k + 1) s
  simp only [execBeforeTasks]
  cases hr : (executeWithRetry cfg b (k + 1) s).1 with
  | pnone =>
    simp only [PyRetVal.getSuccessD]
    exact ⟨hframe.1, hframe.2.1⟩
  | pdict d =>
    have hd : d.success.getD true = true :=
      executeWithRetry_pdict cfg b (k + 1) s d hr
    simp only [PyRetVal.getSuccessD, hd]
    exact ⟨hframe.1, hframe.2.1⟩
  | wrapped v =>
    simp only [PyRetVal.getSuccessD]
    exact ⟨hframe.1, hframe.2.1⟩
  | bareSuccess =>
    simp only [PyRetVal.getSuccessD]
    exact ⟨hframe.1, hframe.2.1⟩

/-! ### C3: when the after phase runs -/

/-- Whenever the dispatch (with an after function) returns normally, the
after phase has completed — line 173 runs it unconditionally after the load
phase, stop event or not. -/
theorem dispatchLoadAndAfter_ok (cfg : TestConfig)
    (loadPhase : GenState → Except Esc Bool × GenState) (a : Nat → CallResult)
    (s : GenState) (r : RunRet)
    (h : (dispatchLoadAndAfter cfg loadPhase (some a) s).1 = .ok r) :
    (dispatchLoadAndAfter cfg loadPhase (some a) s).2.1.after_tasks_completed
      = true := by
  simp only [dispatchLoadAndAfter] at h ⊢
  split_ifs at h ⊢ with ht
  · revert h
    cases hl : (loadPhase s).1 with
    | error e =>
      intro h
      simp at h
    | ok truthy =>
      intro h
      exact (execAfterTasks_props cfg a 0 (loadPhase s).2).1

/-- Whenever the try-body (with an after function) returns normally from a
state whose stop event is clear, the after phase has completed: the early
`stopped` return is unreachable because the before phase cannot set the
stop event. -/
theorem genTryBody_ok (cfg : TestConfig)
    (loadPhase : GenState → Except Esc Bool × GenState)
    (beforeB : Option (Nat → CallResult)) (a : Nat → CallResult)
    (s : GenState) (hstop : s.stop_event = false) (r : RunRet)
    (h : (genTryBody cfg loadPhase beforeB (some a) s).1 = .ok r) :
    (genTryBody cfg loadPhase beforeB (some a) s).2.1.after_tasks_completed
      = true := by
  cases beforeB with
  | none => exact dispatchLoadAndAfter_ok cfg loadPhase a s r h
  | some b =>
    have hsb : (execBeforeTasks cfg b 0 s).2.1.stop_event = false :=
      (execBeforeTasks_frame cfg b 0 s).1.trans hstop
    simp only [genTryBody] at h ⊢
    revert h
    cases he : (execBeforeTasks cfg b 0 s).1 with
    | error e' =>
      intro h
      simp at h
    | ok u =>
      intro h
      dsimp only at h ⊢
      simp only [hsb, Bool.false_eq_true, if_false] at h ⊢
      exact dispatchLoadAndAfter_ok cfg loadPhase a _ r h

/-- C3 counterexample: the after phase does not run on every path.  The
`finally:` block (lines 185-193) skips the after tasks when the stop event
is set, so a load phase that sets the stop event and then raises — as
`_generate_stability_load` does when a fully-failed retry's `None` result
(line 1228) is hidden beyond the `results[-1000:]` slice, a threshold
violation calls `self.stop()` and breaks (lines 1206-1209), and the final
`_analyze_stability_interval` call hits `r.get('success', True)` on that
`None` (line 1291) — escapes `generate_load` with the after function never
executed. -/
theorem after_phase_skipped_on_stopped_escape :
    (generate_load { test_type := "stability" }
        (fun s => (.error .attributeNoneGet, { s with stop_event := true }))
        none (some fun _ => .ok .pyNone) initGenState).1
      = .error .attributeNoneGet ∧
    (generate_load { test_type := "stability" }
        (fun s => (.error .attributeNoneGet, { s with stop_event := true }))
        none (some fun _ => .ok .pyNone) initGenState).2.stop_event = true ∧
    (generate_load { test_type := "stability" }
        (fun s => (.error .attributeNoneGet, { s with stop_event := true }))
        none (some fun _ => .ok .pyNone) initGenState).2.after_tasks_completed
      = false := by
  refine ⟨?_, ?_, ?_⟩ <;> decide

/-- C3 amended: whenever an after function is supplied, the after phase is
executed before `generate_load` hands control back to the caller on every
path except one: a run that ends with an escaping exception while the stop
event is set skips the after tasks in the `finally:` block (lines 185-193).
Precisely: (1) every run that returns normally ends with the after phase
completed (in particular runs whose load phase was aborted via the stop
event — line 173 runs the after tasks unconditionally, and the early
`stopped` return is unreachable because the before phase cannot set the
stop event); (2) every run that ends with an escaping exception while the
stop event is clear — which covers every escape out of the before phase and
the dispatch itself — has run the after phase in the `finally:` block; and
(3) concretely, a run whose before function always raises escapes with the
`AttributeError` but has still executed the after phase. -/
theorem after_phase_runs_unless_stopped_escape (cfg : TestConfig)
    (loadPhase : GenState → Except Esc Bool × GenState)
    (beforeB : Option (Nat → CallResult)) (a : Nat → CallResult)
    (e : PyExc) (s0 : GenState) :
    (∀ (r : RunRet) (s' : GenState),
      generate_load cfg loadPhase beforeB (some a) s0 = (.ok r, s') →
      s'.after_tasks_completed = true) ∧
    (∀ (err : Esc) (s' : GenState),
      generate_load cfg loadPhase beforeB (some a) s0 = (.error err, s') →
      s'.stop_event = false → s'.after_tasks_completed = true) ∧
    ((generate_load cfg loadPhase (some fun _ => .exc e) (some a) s0).1
        = .error .attributeNoneGet ∧
      (generate_load cfg loadPhase (some fun _ => .exc e)
        (some a) s0).2.after_tasks_completed = true) := by
  refine ⟨?_, ?_, ?_⟩
  · intro r s' heq
    simp only [generate_load] at heq
    rw [Prod.mk.injEq] at heq
    obtain ⟨ho, hs⟩ := heq
    subst hs
    have hafter := genTryBody_ok cfg loadPhase beforeB a (resetRunState s0) rfl r ho
    simp [hafter]
  · intro err s' heq hstopF
    simp only [generate_load] at heq
    rw [Prod.mk.injEq] at heq
    obtain ⟨ho, hs⟩ := heq
    subst hs
    set s1 := (genTryBody cfg loadPhase beforeB (some a) (resetRunState s0)).2.1
    set ka := (genTryBody cfg loadPhase beforeB (some a) (resetRunState s0)).2.2
    cases hb : s1.after_tasks_completed with
    | true => simp [hb]
    | false =>
      cases hs1 : s1.stop_event with
      | true => simp [hb, hs1] at hstopF
      | false =>
        have hep := (execAfterTasks_props cfg a ka s1).1
        simp [hb, hs1, hep]
  · have h1 : (execBeforeTasks cfg (fun _ => .exc e) 0 (resetRunState s0)).1
        = .error .attributeNoneGet := by
      simp only [execBeforeTasks]
      rw [executeWithRetry_allfail]
      rfl
    have hframe := execBeforeTasks_frame cfg (fun _ => .exc e) 0 (resetRunState s0)
    have hsb : (execBeforeTasks cfg (fun _ => .exc e) 0
        (resetRunState s0)).2.1.stop_event = false := hframe.1.trans rfl
    have hab : (execBeforeTasks cfg (fun _ => .exc e) 0
        (resetRunState s0)).2.1.after_tasks_completed = false := hframe.2.trans rfl
    have hgen1 : (genTryBody cfg loadPhase (some fun _ => .exc e) (some a)
        (resetRunState s0)).1 = .error .attributeNoneGet := by
      simp [genTryBody, h1]
    have hgen2 : (genTryBody cfg loadPhase (some fun _ => .exc e) (some a)
        (resetRunState s0)).2.1
        = (execBeforeTasks cfg (fun _ => .exc e) 0 (resetRunState s0)).2.1 := by
      simp [genTryBody, h1]
    constructor
    · simp only [generate_load]
      exact hgen1
    · have hep := (execAfterTasks_props cfg a
        (genTryBody cfg loadPhase (some fun _ => .exc e) (some a)
          (resetRunState s0)).2.2
        (execBeforeTasks cfg (fun _ => .exc e) 0 (resetRunState s0)).2.1).1
      simp only [generate_load]
      simp [hgen2, hab, hsb, hep]

/-- Witness for `after_phase_runs_unless_stopped_escape`: a concrete
no-before run with a trivial load phase returns normally with the after
phase completed. -/
theorem after_phase_runs_unless_stopped_escape_witness :
    (generate_load { test_type := "concurrent" } (fun s => (.ok true, s)) none
        (some fun _ => .ok .pyNone) initGenState).2.after_tasks_completed = true := by
  have h1 : (generate_load { test_type := "concurrent" } (fun s => (.ok true, s)) none
      (some fun _ => .ok .pyNone) initGenState).1 = .ok (.result true) := by decide
  exact (after_phase_runs_unless_stopped_escape { test_type := "concurrent" }
      (fun s => (.ok true, s))
      none (fun _ => .ok .pyNone) boomExc initGenState).1 (.result true) _ (by rw [← h1])

/-! ### C10: the before function is invoked twice -/

/-- The retry loop only consults the stream at indices `≥ k`. -/
theorem retryGo_congr (cfg : TestConfig) (stream stream' : Nat → CallResult) (k : Nat)
    (hagree : ∀ n, k ≤ n → stream n = stream' n) :
    ∀ (fuel attempt : Nat) (s : GenState),
    retryGo cfg stream k attempt fuel s = retryGo cfg stream' k attempt fuel s := by
  intro fuel
  induction fuel with
  | zero =>
    intro attempt s
    rw [retryGo, retryGo, hagree (k + attempt) (by omega)]
  | succ f ih =>
    intro attempt s
    rw [retryGo, retryGo, hagree (k + attempt) (by omega)]
    cases hc : stream' (k + attempt) with
    | ok v => rfl
    | exc e =>
      dsimp only
      split
      · exact ih (attempt + 1) (failStep e s)
      · rfl

/-- The retry loop reads only `max_retries` and `retryable_errors` from the
configuration. -/
theorem retryGo_cfg_congr (cfg cfg' : TestConfig)
    (hmax : cfg.max_retries = cfg'.max_retries)
    (hra : cfg.retryable_errors = cfg'.retryable_errors)
    (stream : Nat → CallResult) (k : Nat) :
    ∀ (fuel attempt : Nat) (s : GenState),
    retryGo cfg stream k attempt fuel s = retryGo cfg' stream k attempt fuel s := by
  have hsr : ∀ e, shouldRetry cfg e = shouldRetry cfg' e := by
    intro e
    simp [shouldRetry, hra]
  intro fuel
  induction fuel with
  | zero =>
    intro attempt s
    rw [retryGo, retryGo]
    cases hc : stream (k + attempt) with
    | ok v => rfl
    | exc e =>
      dsimp only
      rw [hsr e, hmax]
  | succ f ih =>
    intro attempt s
    rw [retryGo, retryGo]
    cases hc : stream (k + attempt) with
    | ok v => rfl
    | exc e =>
      dsimp only
      rw [hsr e, hmax]
      split
      · exact ih (attempt + 1) (failStep e s)
      · rfl

/-- When the first attempt of the task succeeds, `_execute_with_retry`
returns immediately after one attempt. -/
theorem executeWithRetry_first_ok (cfg : TestConfig) (stream : Nat → CallResult)
    (k : Nat) (s : GenState) (v : PyValue) (h : stream k = .ok v) :
    executeWithRetry cfg stream k s =
      (retrySuccessVal v,
       { s with consecutive_error_count := 0, consecutive_errors := 0 }, 1) := by
  simp only [executeWithRetry]
  rw [retryGo]
  simp only [Nat.add_zero, h]

/-- C10: `_execute_before_tasks` invokes the before function twice.  The
`executor.submit(before_func)` invocation (index `k`) is discarded: the
phase's entire outcome is independent of it (first conjunct), and it is
likewise independent of the configured `before_concurrent` (second
conjunct).  When the retry-executed invocation (index `k + 1`) returns a
value, the phase consumed exactly the two invocations `k` and `k + 1`
(third conjunct), appended exactly the retry-executed result — not the
pool result — to `before_results` (fourth conjunct), and returned
normally. -/
theorem before_double_invocation (cfg : TestConfig) (b b' : Nat → CallResult)
    (k n : Nat) (s : GenState) (v : PyValue)
    (hagree : ∀ i, i ≠ k → b i = b' i) (hfirst : b (k + 1) = .ok v) :
    execBeforeTasks cfg b k s = execBeforeTasks cfg b' k s ∧
    execBeforeTasks { cfg with before_concurrent := n } b k s
      = execBeforeTasks cfg b k s ∧
    (execBeforeTasks cfg b k s).2.2 = k + 2 ∧
    (execBeforeTasks cfg b k s).2.1.before_results
      = s.before_results ++ [retrySuccessVal v] ∧
    (execBeforeTasks cfg b k s).1 = .ok () := by
  have hew : executeWithRetry cfg b (k + 1) s = executeWithRetry cfg b' (k + 1) s := by
    simp only [executeWithRetry]
    exact retryGo_congr cfg b b' (k + 1) (fun i hi => hagree i (by omega)) _ 0 _
  have hewc : executeWithRetry { cfg with before_concurrent := n } b (k + 1) s
      = executeWithRetry cfg b (k + 1) s := by
    simp only [executeWithRetry]
    exact retryGo_cfg_congr { cfg with before_concurrent := n } cfg rfl rfl b (k + 1) _ 0 _
  have hfirstEq := executeWithRetry_first_ok cfg b (k + 1) s v hfirst
  refine ⟨?_, ?_, ?_, ?_, ?_⟩
  · simp only [execBeforeTasks, hew]
  · simp only [execBeforeTasks, hewc]
  · simp only [execBeforeTasks, hfirstEq]
    cases v with
    | pyDictV d =>
      by_cases hd : d.success.getD true = true
      · simp [retrySuccessVal, hd, PyRetVal.getSuccessD]
      · simp [retrySuccessVal, hd, PyRetVal.getSuccessD]
    | pyResp c => simp [retrySuccessVal, PyRetVal.getSuccessD]
    | pyNone => simp [retrySuccessVal, PyRetVal.getSuccessD]
    | pyOther => simp [retrySuccessVal, PyRetVal.getSuccessD]
  · simp only [execBeforeTasks, hfirstEq]
    cases v with
    | pyDictV d =>
      by_cases hd : d.success.getD true = true
      · simp [retrySuccessVal, hd, PyRetVal.getSuccessD]
      · simp [retrySuccessVal, hd, PyRetVal.getSuccessD]
    | pyResp c => simp [retrySuccessVal, PyRetVal.getSuccessD]
    | pyNone => simp [retrySuccessVal, PyRetVal.getSuccessD]
    | pyOther => simp [retrySuccessVal, PyRetVal.getSuccessD]
  · simp only [execBeforeTasks, hfirstEq]
    cases v with
    | pyDictV d =>
      by_cases hd : d.success.getD true = true
      · simp [retrySuccessVal, hd, PyRetVal.getSuccessD]
      · simp [retrySuccessVal, hd, PyRetVal.getSuccessD]
    | pyResp c => simp [retrySuccessVal, PyRetVal.getSuccessD]
    | pyNone => simp [retrySuccessVal, PyRetVal.getSuccessD]
    | pyOther => simp [retrySuccessVal, PyRetVal.getSuccessD]

/-- Witness for `before_double_invocation`: a concrete before function whose
every invocation returns `None` consumes exactly invocations 0 and 1 and
appends exactly the retry-executed `success=True` dict. -/
theorem before_double_invocation_witness :
    (execBeforeTasks {} (fun _ => .ok .pyNone) 0 initGenState).2.2 = 0 + 2 ∧
    (execBeforeTasks {} (fun _ => .ok .pyNone) 0 initGenState).2.1.before_results
      = initGenState.before_results ++ [retrySuccessVal .pyNone] :=
  ⟨(before_double_invocation {} (fun _ => .ok .pyNone) (fun _ => .ok .pyNone) 0 0
      initGenState .pyNone (fun _ _ => rfl) rfl).2.2.1,
   (before_double_invocation {} (fun _ => .ok .pyNone) (fun _ => .ok .pyNone) 0 0
      initGenState .pyNone (fun _ _ => rfl) rfl).2.2.2.1⟩

end Apitestkit
